import Mathlib

/-!
Shallow embedding of the authentication core of the auth-frontend repository:
the axios request/response interceptors (src/services/authService.js), the
session reducer and its operations (src/contexts/AuthContext.jsx), and the
route guard (src/components/ProtectedRoute.jsx).  Network calls are modelled
by explicit outcome oracles; browser localStorage is modelled by a record of
the two token keys; JavaScript string truthiness is modelled explicitly.
-/

namespace AuthFrontend

/-- JavaScript truthiness of a value read from localStorage.getItem:
null is falsy, the empty string is falsy, every other string is truthy. -/
def truthy : Option String → Bool
  | none => false
  | some s => !s.isEmpty

/-- JavaScript String.prototype.includes as a substring test. -/
def jsIncludes (s pat : String) : Bool :=
  pat.isEmpty || (s.splitOn pat).length ≥ 2

/-- Browser local storage restricted to the two token keys used by the app
(STORAGE_KEYS.ACCESS_TOKEN and STORAGE_KEYS.REFRESH_TOKEN). -/
structure Storage where
  accessToken : Option String
  refreshToken : Option String
  deriving DecidableEq, Repr

/-- A token pair as returned by the backend login/refresh endpoints. -/
structure TokenPair where
  access_token : String
  refresh_token : String
  deriving DecidableEq, Repr

/-- An axios request config: its url, its Authorization header (absent unless
set), and the mutable retry marker written as config.retry in the source. -/
structure RequestConfig where
  url : String
  authorization : Option String
  retry : Bool
  deriving DecidableEq, Repr

/-- The request interceptor of src/services/authService.js lines 20-31:
read the access token from storage; when it is truthy set the Authorization
header to the Bearer form of exactly that token, otherwise pass the config
through unchanged. -/
def requestInterceptor (store : Storage) (config : RequestConfig) : RequestConfig :=
  match store.accessToken with
  | some token =>
      if !token.isEmpty then
        { config with authorization := some ("Bearer " ++ token) }
      else
        config
  | none => config

/-- An axios error object as seen by the response interceptor: the optional
response status (error.response?.status) and the originating request config. -/
structure HttpError where
  status : Option Nat
  config : RequestConfig
  deriving DecidableEq, Repr

/-- Environment of one run of the response interceptor: the outcome of the
refresh endpoint call if it is made (none means the call rejects), and the
current window.location.pathname. -/
structure InterceptEnv where
  refreshOutcome : Option TokenPair
  pathname : String
  deriving Repr

/-- What the interceptor returns to the original caller: either the response
obtained by re-dispatching the recorded request through the client, or a
rejection carrying the (possibly mutated) error. -/
inductive InterceptResult where
  | resolved (redispatched : RequestConfig)
  | rejected (err : HttpError)
  deriving DecidableEq, Repr

/-- Full observable outcome of one run of the response interceptor. -/
structure InterceptOutcome where
  result : InterceptResult
  store : Storage
  refreshCalls : Nat
  redispatches : List RequestConfig
  redirectScheduled : Bool
  deriving DecidableEq, Repr

/-- The url fragments treated as public pages by the interceptor. -/
def publicPaths : List String := ["/login", "/register", "/forgot-password"]

/-- The response error interceptor of src/services/authService.js lines
36-81.  On a 401 for a not-yet-retried request it sets the retry marker,
and when a truthy refresh token is stored it calls the refresh endpoint:
on success it persists the new pair, patches the Authorization header and
re-dispatches the request, returning that dispatch to the caller; on failure
it clears both tokens and schedules a delayed redirect to /login unless the
page is public or the request targets /users/me or /auth/refresh.  In every
other branch the original error is rejected unchanged apart from the retry
marker mutation. -/
def responseErrorInterceptor (env : InterceptEnv) (store : Storage)
    (error : HttpError) : InterceptOutcome :=
  if error.status = some 401 ∧ error.config.retry = false then
    let originalRequest := { error.config with retry := true }
    if truthy store.refreshToken then
      match env.refreshOutcome with
      | some tp =>
          let store1 : Storage :=
            { store with accessToken := some tp.access_token,
                         refreshToken := some tp.refresh_token }
          let patched : RequestConfig :=
            { originalRequest with authorization := some ("Bearer " ++ tp.access_token) }
          { result := .resolved patched
            store := store1
            refreshCalls := 1
            redispatches := [patched]
            redirectScheduled := false }
      | none =>
          let store1 : Storage := { store with accessToken := none, refreshToken := none }
          let isPublicPage := publicPaths.any (fun p => jsIncludes env.pathname p)
          let isAuthContextRequest := jsIncludes originalRequest.url "/users/me"
          let isRefreshRequest := jsIncludes originalRequest.url "/auth/refresh"
          { result := .rejected { error with config := originalRequest }
            store := store1
            refreshCalls := 1
            redispatches := []
            redirectScheduled := !isPublicPage && !isAuthContextRequest && !isRefreshRequest }
    else
      { result := .rejected { error with config := originalRequest }
        store := store
        refreshCalls := 0
        redispatches := []
        redirectScheduled := false }
  else
    { result := .rejected error
      store := store
      refreshCalls := 0
      redispatches := []
      redirectScheduled := false }

/-- The user profile fields the verified components inspect. -/
structure User where
  id : Nat
  is_superuser : Bool
  company_id : Int
  deriving DecidableEq, Repr

/-- The session state held by the AuthContext reducer
(src/contexts/AuthContext.jsx lines 11-18). -/
structure AuthState where
  user : Option User
  token : Option String
  refreshToken : Option String
  isAuthenticated : Bool
  isLoading : Bool
  error : Option String
  deriving DecidableEq, Repr

/-- Initial session state: everything absent, loading true. -/
def initialState : AuthState :=
  { user := none, token := none, refreshToken := none,
    isAuthenticated := false, isLoading := true, error := none }

/-- The actions dispatched to the reducer.  Payload fields that may be
undefined in JavaScript are modelled as options. -/
inductive AuthAction where
  | loginStart
  | loginSuccess (user : Option User) (token : Option String) (refreshToken : Option String)
  | loginFailure (message : Option String)
  | logoutAction
  | updateUser (user : Option User)
  | setLoading (b : Bool)
  | setError (message : Option String)
  | clearError
  deriving DecidableEq, Repr

/-- The reducer of src/contexts/AuthContext.jsx lines 25-87, case for case. -/
def authReducer (state : AuthState) (action : AuthAction) : AuthState :=
  match action with
  | .loginStart =>
      { state with isLoading := true, error := none }
  | .loginSuccess u t r =>
      { state with user := u, token := t, refreshToken := r,
                   isAuthenticated := true, isLoading := false, error := none }
  | .loginFailure m =>
      { state with user := none, token := none, refreshToken := none,
                   isAuthenticated := false, isLoading := false, error := m }
  | .logoutAction =>
      { state with user := none, token := none, refreshToken := none,
                   isAuthenticated := false, isLoading := false, error := none }
  | .updateUser u =>
      { state with user := u }
  | .setLoading b =>
      { state with isLoading := b }
  | .setError m =>
      { state with error := m, isLoading := false }
  | .clearError =>
      { state with error := none }

/-- Storage after localStorage.removeItem of both token keys. -/
def clearedStore (store : Storage) : Storage :=
  { store with accessToken := none, refreshToken := none }

/-- Environment of one bootstrap run: the decoded exp claim of a token
(none models jwtDecode throwing on a malformed token), the current time in
seconds, and the outcomes of getCurrentUser and of the refresh call (none
models the call rejecting). -/
structure BootstrapEnv where
  decodeExp : String → Option Nat
  now : Nat
  userOutcome : Option User
  refreshOutcome : Option TokenPair

/-- Observable outcome of one bootstrap run: final session state and
storage, plus how many getCurrentUser and refresh calls were made. -/
structure BootstrapResult where
  state : AuthState
  store : Storage
  userFetchCalls : Nat
  refreshCalls : Nat
  deriving DecidableEq, Repr

/-- The bootstrap sequence of src/contexts/AuthContext.jsx lines 110-180
(the initializeAuth closure).  When either stored token is falsy it only
dispatches SET_LOADING false.  Otherwise it decodes the access token: a
decode failure clears storage and dispatches LOGOUT; a future exp fetches
the user (success dispatches LOGIN_SUCCESS with the stored tokens, failure
clears storage and dispatches LOGOUT); a non-future exp calls refresh, and
on success persists the new pair and fetches the user, any failure on that
path clearing storage and dispatching LOGOUT. -/
def bootstrap (env : BootstrapEnv) (s : AuthState) (store : Storage) : BootstrapResult :=
  if ¬ truthy store.accessToken ∨ ¬ truthy store.refreshToken then
    { state := authReducer s (.setLoading false), store := store,
      userFetchCalls := 0, refreshCalls := 0 }
  else
    let token := store.accessToken.getD ""
    let rtok := store.refreshToken.getD ""
    match env.decodeExp token with
    | none =>
        { state := authReducer s .logoutAction, store := clearedStore store,
          userFetchCalls := 0, refreshCalls := 0 }
    | some exp =>
        if env.now < exp then
          match env.userOutcome with
          | some u =>
              { state := authReducer s (.loginSuccess (some u) (some token) (some rtok)),
                store := store, userFetchCalls := 1, refreshCalls := 0 }
          | none =>
              { state := authReducer s .logoutAction, store := clearedStore store,
                userFetchCalls := 1, refreshCalls := 0 }
        else
          match env.refreshOutcome with
          | some tp =>
              let store1 : Storage :=
                { store with accessToken := some tp.access_token,
                             refreshToken := some tp.refresh_token }
              match env.userOutcome with
              | some u =>
                  { state := authReducer s
                      (.loginSuccess (some u) (some tp.access_token) (some tp.refresh_token)),
                    store := store1, userFetchCalls := 1, refreshCalls := 1 }
              | none =>
                  { state := authReducer s .logoutAction, store := clearedStore store1,
                    userFetchCalls := 1, refreshCalls := 1 }
          | none =>
              { state := authReducer s .logoutAction, store := clearedStore store,
                userFetchCalls := 0, refreshCalls := 1 }

/-- Environment of one login run: outcome of the login endpoint (none means
the call rejects), outcome of the subsequent getCurrentUser call, and the
error message string the catch block derives from the rejection. -/
structure LoginEnv where
  loginOutcome : Option TokenPair
  userOutcome : Option User
  errorMessage : String
  deriving DecidableEq, Repr

/-- Observable outcome of a login or logout run: final session state and
storage, and whether the operation rethrew its error to the caller. -/
structure OpResult where
  state : AuthState
  store : Storage
  threw : Bool
  deriving DecidableEq, Repr

/-- The first login variant (src/contexts/AuthContext.jsx lines 189-222):
dispatch LOGIN_START; on login success persist the returned pair and fetch
the user; any rejection dispatches LOGIN_FAILURE with the derived message
and rethrows, leaving storage exactly as the failing step left it. -/
def loginV1 (env : LoginEnv) (s : AuthState) (store : Storage) : OpResult :=
  let s1 := authReducer s .loginStart
  match env.loginOutcome with
  | none =>
      { state := authReducer s1 (.loginFailure (some env.errorMessage)),
        store := store, threw := true }
  | some tp =>
      let store1 : Storage :=
        { store with accessToken := some tp.access_token,
                     refreshToken := some tp.refresh_token }
      match env.userOutcome with
      | none =>
          { state := authReducer s1 (.loginFailure (some env.errorMessage)),
            store := store1, threw := true }
      | some u =>
          { state := authReducer s1
              (.loginSuccess (some u) (some tp.access_token) (some tp.refresh_token)),
            store := store1, threw := false }

/-- The second login variant (src/contexts/AuthContext.jsx lines 515-556):
identical to the first except that the catch block additionally removes both
tokens from storage before dispatching LOGIN_FAILURE and rethrowing. -/
def loginV2 (env : LoginEnv) (s : AuthState) (store : Storage) : OpResult :=
  let s1 := authReducer s .loginStart
  match env.loginOutcome with
  | none =>
      { state := authReducer s1 (.loginFailure (some env.errorMessage)),
        store := clearedStore store, threw := true }
  | some tp =>
      let store1 : Storage :=
        { store with accessToken := some tp.access_token,
                     refreshToken := some tp.refresh_token }
      match env.userOutcome with
      | none =>
          { state := authReducer s1 (.loginFailure (some env.errorMessage)),
            store := clearedStore store1, threw := true }
      | some u =>
          { state := authReducer s1
              (.loginSuccess (some u) (some tp.access_token) (some tp.refresh_token)),
            store := store1, threw := false }

/-- The logout operation (src/contexts/AuthContext.jsx lines 227-239): a
best-effort server call whose failure is only logged, then a finally block
that removes both tokens and dispatches LOGOUT.  The serverOk flag records
whether the server call succeeded; it does not influence the outcome. -/
def logoutOp (serverOk : Bool) (s : AuthState) (store : Storage) : OpResult :=
  if serverOk then
    { state := authReducer s .logoutAction, store := clearedStore store, threw := false }
  else
    { state := authReducer s .logoutAction, store := clearedStore store, threw := false }

/-- What the route guard renders. -/
inductive GuardOutcome where
  | spinner
  | navigateLogin (origin : String)
  | navigateDashboard
  | children
  deriving DecidableEq, Repr

/-- JavaScript truthiness of the optional chain user?.is_superuser. -/
def optSuperuser : Option User → Bool
  | none => false
  | some u => u.is_superuser

/-- JavaScript truth of the comparison user?.company_id !== 1 (true when
user is absent, since undefined differs from 1). -/
def optCompanyNot1 : Option User → Bool
  | none => true
  | some u => u.company_id != 1

/-- The route guard of src/components/ProtectedRoute.jsx lines 13-42,
branch for branch: spinner while loading, redirect to /login carrying the
current location when unauthenticated, redirect to /dashboard when admin is
required and the user is not a superuser, redirect to /dashboard when root
is required and the user is not a superuser or has a company other than 1,
otherwise the protected children. -/
def ProtectedRoute (requireAdmin requireRoot : Bool) (isAuthenticated : Bool)
    (user : Option User) (isLoading : Bool) (location : String) : GuardOutcome :=
  if isLoading then
    .spinner
  else if !isAuthenticated then
    .navigateLogin location
  else if requireAdmin && !optSuperuser user then
    .navigateDashboard
  else if requireRoot && (!optSuperuser user || optCompanyNot1 user) then
    .navigateDashboard
  else
    .children

/-- Root-session test as the spec words it: the user is a superuser whose
tenant identifier equals the reserved root value 1. -/
def isRootSession : Option User → Bool
  | none => false
  | some u => u.is_superuser && u.company_id == 1

/-- The route guard as claim C9 words it, with no admin-only branch: while
loading render the placeholder; once settled redirect unauthenticated users
to /login preserving the location; redirect to /dashboard when root is
required and the session is not a root session; otherwise render children. -/
def guardClaimC9 (requireAdmin requireRoot : Bool) (isAuthenticated : Bool)
    (user : Option User) (isLoading : Bool) (location : String) : GuardOutcome :=
  if isLoading then
    .spinner
  else if !isAuthenticated then
    .navigateLogin location
  else if requireRoot && !isRootSession user then
    .navigateDashboard
  else
    .children

/-- The route guard as amended: identical to claim C9 but with the admin
branch of the source restored before the root branch. -/
def guardAmendedC9 (requireAdmin requireRoot : Bool) (isAuthenticated : Bool)
    (user : Option User) (isLoading : Bool) (location : String) : GuardOutcome :=
  if isLoading then
    .spinner
  else if !isAuthenticated then
    .navigateLogin location
  else if requireAdmin && !optSuperuser user then
    .navigateDashboard
  else if requireRoot && !isRootSession user then
    .navigateDashboard
  else
    .children

/-! Concrete environments and inputs reused by witnesses and counterexamples. -/

/-- Bootstrap environment in which every oracle fails. -/
def bootEnvW : BootstrapEnv :=
  { decodeExp := fun _ => none, now := 0, userOutcome := none, refreshOutcome := none }

/-- Bootstrap environment with a decoded expiry of 5 at time 10 and a
failing refresh oracle. -/
def bootEnvExpW : BootstrapEnv :=
  { decodeExp := fun _ => some 5, now := 10, userOutcome := none, refreshOutcome := none }

/-- Storage holding no tokens. -/
def storeEmptyW : Storage := { accessToken := none, refreshToken := none }

/-- Storage holding only an access token. -/
def storeAccOnlyW : Storage := { accessToken := some "a", refreshToken := none }

/-- Storage holding both tokens. -/
def storeBothW : Storage := { accessToken := some "t", refreshToken := some "r" }

/-- C3: bootstrapping with no persisted tokens ends unauthenticated with
isLoading false and performs neither a getCurrentUser call nor a refresh
call. -/
theorem bootstrap_no_tokens (env : BootstrapEnv) (store : Storage)
    (hacc : store.accessToken = none) (href : store.refreshToken = none) :
    (bootstrap env initialState store).state.isAuthenticated = false
    ∧ (bootstrap env initialState store).state.isLoading = false
    ∧ (bootstrap env initialState store).userFetchCalls = 0
    ∧ (bootstrap env initialState store).refreshCalls = 0 := by
  simp [bootstrap, truthy, hacc, href, authReducer, initialState]

/-- Witness instantiating the no-token bootstrap theorem. -/
theorem bootstrap_no_tokens_w :
    storeEmptyW.accessToken = none ∧ storeEmptyW.refreshToken = none
    ∧ ((bootstrap bootEnvW initialState storeEmptyW).state.isAuthenticated = false
       ∧ (bootstrap bootEnvW initialState storeEmptyW).state.isLoading = false
       ∧ (bootstrap bootEnvW initialState storeEmptyW).userFetchCalls = 0
       ∧ (bootstrap bootEnvW initialState storeEmptyW).refreshCalls = 0) :=
  ⟨rfl, rfl, bootstrap_no_tokens bootEnvW storeEmptyW rfl rfl⟩

/-- C10: bootstrapping with exactly one of the two tokens persisted ends
anonymous with isLoading false, performs no network call, and leaves the
persisted storage, including the remaining token, unchanged. -/
theorem bootstrap_single_token (env : BootstrapEnv) (store : Storage)
    (h : (store.accessToken.isSome = true ∧ store.refreshToken = none)
       ∨ (store.accessToken = none ∧ store.refreshToken.isSome = true)) :
    (bootstrap env initialState store).state.isAuthenticated = false
    ∧ (bootstrap env initialState store).state.isLoading = false
    ∧ (bootstrap env initialState store).userFetchCalls = 0
    ∧ (bootstrap env initialState store).refreshCalls = 0
    ∧ (bootstrap env initialState store).store = store := by
  rcases h with ⟨_, h2⟩ | ⟨h1, _⟩
  · simp [bootstrap, truthy, h2, authReducer, initialState]
  · simp [bootstrap, truthy, h1, authReducer, initialState]

/-- Witness instantiating the single-token bootstrap theorem. -/
theorem bootstrap_single_token_w :
    (storeAccOnlyW.accessToken.isSome = true ∧ storeAccOnlyW.refreshToken = none)
    ∧ (bootstrap bootEnvW initialState storeAccOnlyW).store = storeAccOnlyW :=
  ⟨⟨rfl, rfl⟩,
    (bootstrap_single_token bootEnvW storeAccOnlyW (Or.inl ⟨rfl, rfl⟩)).2.2.2.2⟩

/-- C4: bootstrapping with persisted non-empty tokens whose access token
decodes to an expiry in the past, when the refresh call fails, ends
unauthenticated with isLoading false and removes both tokens from storage. -/
theorem bootstrap_expired_refresh_failure (env : BootstrapEnv) (store : Storage)
    (tok rtok : String) (exp : Nat)
    (hacc : store.accessToken = some tok) (href : store.refreshToken = some rtok)
    (htok : tok.isEmpty = false) (hrtok : rtok.isEmpty = false)
    (hdec : env.decodeExp tok = some exp) (hexp : exp < env.now)
    (hrf : env.refreshOutcome = none) :
    (bootstrap env initialState store).state.isAuthenticated = false
    ∧ (bootstrap env initialState store).state.isLoading = false
    ∧ (bootstrap env initialState store).store.accessToken = none
    ∧ (bootstrap env initialState store).store.refreshToken = none := by
  have hnl : ¬ env.now < exp := by omega
  simp [bootstrap, truthy, hacc, href, htok, hrtok, hdec, hnl, hrf,
    authReducer, initialState, clearedStore]

/-- Witness instantiating the expired-token failing-refresh bootstrap
theorem. -/
theorem bootstrap_expired_refresh_failure_w :
    storeBothW.accessToken = some "t" ∧ bootEnvExpW.decodeExp "t" = some 5
    ∧ (5 : Nat) < bootEnvExpW.now
    ∧ ((bootstrap bootEnvExpW initialState storeBothW).state.isAuthenticated = false
       ∧ (bootstrap bootEnvExpW initialState storeBothW).state.isLoading = false
       ∧ (bootstrap bootEnvExpW initialState storeBothW).store.accessToken = none
       ∧ (bootstrap bootEnvExpW initialState storeBothW).store.refreshToken = none) :=
  ⟨rfl, rfl, by decide,
    bootstrap_expired_refresh_failure bootEnvExpW storeBothW "t" "r" 5
      rfl rfl (by decide) (by decide) rfl (by decide) rfl⟩

/-- Login environment in which the credential exchange succeeds but the
current-user fetch fails. -/
def loginEnvCexW : LoginEnv :=
  { loginOutcome := some { access_token := "A", refresh_token := "R" },
    userOutcome := none, errorMessage := "boom" }

/-- C5 counterexample: in the first login variant, when the credential
exchange succeeds and persists the returned tokens but the current-user
fetch then fails, the operation rethrows yet leaves those freshly persisted
tokens in storage, contradicting the claim that any partially-persisted
tokens are cleared. -/
theorem loginV1_keeps_tokens_cex :
    (loginV1 loginEnvCexW initialState storeEmptyW).threw = true
    ∧ (loginV1 loginEnvCexW initialState storeEmptyW).store
        = { accessToken := some "A", refreshToken := some "R" } := by
  decide

/-- C5 (amended): when login fails at either step, both variants set the
session error message, end anonymous with isLoading false, and rethrow; the
second variant additionally clears both persisted tokens, while the first
leaves storage as the failing step left it. -/
theorem login_failure_behavior (env : LoginEnv) (s : AuthState) (store : Storage)
    (h : env.loginOutcome = none ∨ env.userOutcome = none) :
    ((loginV1 env s store).state.isAuthenticated = false
     ∧ (loginV1 env s store).state.isLoading = false
     ∧ (loginV1 env s store).state.error = some env.errorMessage
     ∧ (loginV1 env s store).threw = true)
    ∧ ((loginV2 env s store).state.isAuthenticated = false
       ∧ (loginV2 env s store).state.isLoading = false
       ∧ (loginV2 env s store).state.error = some env.errorMessage
       ∧ (loginV2 env s store).threw = true
       ∧ (loginV2 env s store).store = Storage.mk none none) := by
  rcases h with h | h
  · simp [loginV1, loginV2, h, authReducer, clearedStore]
  · cases hl : env.loginOutcome <;>
      simp [loginV1, loginV2, h, hl, authReducer, clearedStore]

/-- Witness instantiating the amended login-failure theorem. -/
theorem login_failure_behavior_w :
    (loginEnvCexW.loginOutcome = none ∨ loginEnvCexW.userOutcome = none)
    ∧ (loginV2 loginEnvCexW initialState storeEmptyW).store = Storage.mk none none :=
  ⟨Or.inr rfl,
    (login_failure_behavior loginEnvCexW initialState storeEmptyW (Or.inr rfl)).2.2.2.2.2⟩

/-- C6: logout always ends unauthenticated with both tokens removed from
storage and never propagates a server-side failure, whether or not the
server logout call succeeds. -/
theorem logoutOp_always_clears (serverOk : Bool) (s : AuthState) (store : Storage) :
    (logoutOp serverOk s store).state.isAuthenticated = false
    ∧ (logoutOp serverOk s store).store = Storage.mk none none
    ∧ (logoutOp serverOk s store).threw = false := by
  cases serverOk <;> simp [logoutOp, authReducer, clearedStore]

/-- Well-formedness of a dispatched action: LOGIN_SUCCESS carries a user
and both tokens, UPDATE_USER carries a user, as in every dispatch site of
AuthContext.jsx. -/
def WellFormedAction : AuthAction → Prop
  | .loginSuccess u t r => u.isSome = true ∧ t.isSome = true ∧ r.isSome = true
  | .updateUser u => u.isSome = true
  | _ => True

/-- States reachable from the initial state by the reducer under
well-formed actions. -/
inductive Reachable : AuthState → Prop where
  | init : Reachable initialState
  | step (s : AuthState) (a : AuthAction) (hs : Reachable s)
      (ha : WellFormedAction a) : Reachable (authReducer s a)

/-- Strengthened reachability invariant: an authenticated state holds a
user and both tokens, and an unauthenticated state holds no tokens. -/
theorem reachable_inv (s : AuthState) (h : Reachable s) :
    (s.isAuthenticated = true →
      s.user.isSome = true ∧ s.token.isSome = true ∧ s.refreshToken.isSome = true)
    ∧ (s.isAuthenticated = false → s.token = none ∧ s.refreshToken = none) := by
  induction h with
  | init => simp [initialState]
  | step s a hs ha ih => cases a <;> simp_all [authReducer, WellFormedAction]

/-- C7: in every reachable session state, isAuthenticated holds exactly
when the user, the access token and the refresh token are all present. -/
theorem reachable_auth_iff (s : AuthState) (h : Reachable s) :
    s.isAuthenticated = true ↔
      s.user.isSome = true ∧ s.token.isSome = true ∧ s.refreshToken.isSome = true := by
  have aux := reachable_inv s h
  cases hsa : s.isAuthenticated
  · exact iff_of_false (by simp) (by simp [(aux.2 hsa).1])
  · exact iff_of_true rfl (aux.1 hsa)

/-- A concrete non-superuser profile. -/
def userW : User := { id := 7, is_superuser := false, company_id := 2 }

/-- Witness instantiating the reducer invariant after a login success. -/
theorem reachable_auth_iff_w :
    (authReducer initialState
        (AuthAction.loginSuccess (some userW) (some "t") (some "r"))).isAuthenticated = true ↔
      ((authReducer initialState
          (AuthAction.loginSuccess (some userW) (some "t") (some "r"))).user.isSome = true
       ∧ (authReducer initialState
            (AuthAction.loginSuccess (some userW) (some "t") (some "r"))).token.isSome = true
       ∧ (authReducer initialState
            (AuthAction.loginSuccess (some userW) (some "t") (some "r"))).refreshToken.isSome
            = true) :=
  reachable_auth_iff _
    (Reachable.step initialState _ Reachable.init ⟨rfl, rfl, rfl⟩)

/-- A request config after the interceptor set its retry marker. -/
def markRetried (cfg : RequestConfig) : RequestConfig :=
  { cfg with retry := true }

/-- A request config after the interceptor patched its Authorization header
to the Bearer form of a token. -/
def patchAuth (cfg : RequestConfig) (tok : String) : RequestConfig :=
  { cfg with authorization := some ("Bearer " ++ tok) }

/-- Interceptor environment with a succeeding refresh oracle. -/
def envIntW : InterceptEnv :=
  { refreshOutcome := some { access_token := "NA", refresh_token := "NR" },
    pathname := "/dashboard" }

/-- Interceptor environment with a failing refresh oracle. -/
def envRefFailW : InterceptEnv := { refreshOutcome := none, pathname := "/dashboard" }

/-- Storage with an access token but no refresh token. -/
def storeNoRefreshW : Storage := { accessToken := some "old", refreshToken := none }

/-- Storage with both an access token and a refresh token. -/
def storeIntW : Storage := { accessToken := some "old", refreshToken := some "r" }

/-- A 401 error for a not-yet-retried request. -/
def errFreshW : HttpError :=
  { status := some 401,
    config := { url := "/roles/", authorization := none, retry := false } }

/-- C1 counterexample: a 401 on a not-yet-retried request while no refresh
token is persisted makes zero refresh attempts and no re-dispatch, not the
exactly one refresh attempt the claim states. -/
theorem interceptor_no_refresh_token_cex :
    errFreshW.status = some 401 ∧ errFreshW.config.retry = false
    ∧ truthy storeNoRefreshW.refreshToken = false
    ∧ (responseErrorInterceptor envIntW storeNoRefreshW errFreshW).refreshCalls = 0
    ∧ (responseErrorInterceptor envIntW storeNoRefreshW errFreshW).redispatches = [] := by
  decide

/-- C1 (amended): on a 401 for a not-yet-retried request the interceptor
marks the request retried; provided a truthy refresh token is persisted it
makes exactly one refresh attempt, and on refresh success re-dispatches the
request exactly once with the Authorization header set to the new access
token, returning that dispatch to the caller; with no truthy refresh token
it propagates the error with no refresh attempt; a 401 for an
already-retried request is propagated unchanged with no refresh attempt. -/
theorem interceptor_401_behavior (env : InterceptEnv) (store : Storage) (err : HttpError)
    (h401 : err.status = some 401) :
    (err.config.retry = false →
      (truthy store.refreshToken = true →
        (responseErrorInterceptor env store err).refreshCalls = 1
        ∧ (∀ tp, env.refreshOutcome = some tp →
            (responseErrorInterceptor env store err).redispatches =
              [patchAuth (markRetried err.config) tp.access_token]
            ∧ (responseErrorInterceptor env store err).result =
                .resolved (patchAuth (markRetried err.config) tp.access_token)))
      ∧ (truthy store.refreshToken = false →
          (responseErrorInterceptor env store err).refreshCalls = 0
          ∧ (responseErrorInterceptor env store err).result =
              .rejected { err with config := markRetried err.config }
          ∧ (responseErrorInterceptor env store err).redispatches = []))
    ∧ (err.config.retry = true →
        (responseErrorInterceptor env store err).refreshCalls = 0
        ∧ (responseErrorInterceptor env store err).result = .rejected err
        ∧ (responseErrorInterceptor env store err).redispatches = []) := by
  constructor
  · intro hret
    constructor
    · intro htr
      constructor
      · cases henv : env.refreshOutcome <;>
          simp [responseErrorInterceptor, h401, hret, htr, henv, markRetried, patchAuth]
      · intro tp htp
        constructor <;> simp [responseErrorInterceptor, h401, hret, htr, htp, markRetried, patchAuth]
    · intro htr
      refine ⟨?_, ?_, ?_⟩ <;> simp [responseErrorInterceptor, h401, hret, htr, markRetried]
  · intro hret
    refine ⟨?_, ?_, ?_⟩ <;> simp [responseErrorInterceptor, h401, hret]

/-- Witness instantiating the amended 401 interceptor theorem on a
succeeding refresh. -/
theorem interceptor_401_behavior_w :
    errFreshW.config.retry = false ∧ truthy storeIntW.refreshToken = true
    ∧ (responseErrorInterceptor envIntW storeIntW errFreshW).refreshCalls = 1 :=
  ⟨rfl, by decide,
    (((interceptor_401_behavior envIntW storeIntW errFreshW rfl).1 rfl).1 (by decide)).1⟩

/-- C2: when the single refresh attempt for a 401 fails, both persisted
tokens are cleared, the delayed redirect to /login is scheduled exactly
when the failing request targets neither /users/me nor /auth/refresh and
the current page is not public, and the original error, bearing the retry
marker, is rejected to the caller. -/
theorem interceptor_refresh_failure (env : InterceptEnv) (store : Storage) (err : HttpError)
    (h401 : err.status = some 401) (hret : err.config.retry = false)
    (htr : truthy store.refreshToken = true) (hrf : env.refreshOutcome = none) :
    (responseErrorInterceptor env store err).store = Storage.mk none none
    ∧ ((responseErrorInterceptor env store err).redirectScheduled = true ↔
        (jsIncludes err.config.url "/users/me" = false
         ∧ jsIncludes err.config.url "/auth/refresh" = false
         ∧ publicPaths.any (fun p => jsIncludes env.pathname p) = false))
    ∧ (responseErrorInterceptor env store err).result =
        .rejected { err with config := markRetried err.config } := by
  refine ⟨?_, ?_, ?_⟩ <;>
    simp [responseErrorInterceptor, h401, hret, htr, hrf, markRetried,
      Bool.and_eq_true, Bool.not_eq_true']
  tauto

/-- Witness instantiating the refresh-failure theorem, where the redirect
is scheduled. -/
theorem interceptor_refresh_failure_w :
    envRefFailW.refreshOutcome = none ∧ truthy storeIntW.refreshToken = true
    ∧ (responseErrorInterceptor envRefFailW storeIntW errFreshW).store = Storage.mk none none :=
  ⟨rfl, by decide,
    (interceptor_refresh_failure envRefFailW storeIntW errFreshW rfl rfl (by decide) rfl).1⟩

/-- A request config with no Authorization header. -/
def cfgPlainW : RequestConfig := { url := "/users/", authorization := none, retry := false }

/-- C8 counterexample: an empty-string access token is present in storage,
yet the request interceptor attaches no Authorization header, because the
empty string is falsy in JavaScript. -/
theorem requestInterceptor_empty_token_cex :
    (Storage.mk (some "") none).accessToken ≠ none
    ∧ (requestInterceptor (Storage.mk (some "") none) cfgPlainW).authorization = none := by
  decide

/-- C8 (amended): when a non-empty access token is stored, the dispatched
request carries an Authorization header equal to the Bearer form of exactly
that token and is otherwise unchanged; when the stored token is absent or
empty, the request passes through unchanged, so a request arriving with no
Authorization header is dispatched without one. -/
theorem requestInterceptor_behavior (store : Storage) (config : RequestConfig) :
    (∀ t, store.accessToken = some t → t.isEmpty = false →
        requestInterceptor store config
          = { config with authorization := some ("Bearer " ++ t) })
    ∧ (truthy store.accessToken = false → requestInterceptor store config = config) := by
  constructor
  · intro t ht hne
    simp [requestInterceptor, ht, hne]
  · intro ht
    cases hacc : store.accessToken with
    | none => simp [requestInterceptor, hacc]
    | some t =>
        rw [hacc] at ht
        simp [truthy] at ht
        simp [requestInterceptor, hacc, ht]

/-- Witness instantiating the amended request interceptor theorem. -/
theorem requestInterceptor_behavior_w :
    (Storage.mk (some "tok") none).accessToken = some "tok"
    ∧ requestInterceptor (Storage.mk (some "tok") none) cfgPlainW
        = { cfgPlainW with authorization := some ("Bearer " ++ "tok") } :=
  ⟨rfl,
    (requestInterceptor_behavior (Storage.mk (some "tok") none) cfgPlainW).1
      "tok" rfl (by decide)⟩

/-- C9 counterexample: an authenticated non-superuser on an admin-only
route is redirected to /dashboard by the guard, while the claim, which
omits the admin-only branch, says the protected children are rendered. -/
theorem guard_admin_branch_cex :
    ProtectedRoute true false true (some userW) false "/admin/users"
      = GuardOutcome.navigateDashboard
    ∧ guardClaimC9 true false true (some userW) false "/admin/users"
        = GuardOutcome.children := by
  decide

/-- C9 (amended): the guard agrees pointwise with the spec-level guard that
renders the spinner while loading, redirects unauthenticated sessions to
/login carrying the attempted location, redirects to /dashboard when admin
is required and the user is not a superuser or when root is required and
the user is not a superuser of the root tenant, and otherwise renders the
protected children. -/
theorem guard_matches_spec (requireAdmin requireRoot isAuthenticated : Bool)
    (user : Option User) (isLoading : Bool) (location : String) :
    ProtectedRoute requireAdmin requireRoot isAuthenticated user isLoading location
      = guardAmendedC9 requireAdmin requireRoot isAuthenticated user isLoading location := by
  cases user with
  | none =>
      cases isLoading <;> cases isAuthenticated <;>
        cases requireAdmin <;> cases requireRoot <;>
        simp [ProtectedRoute, guardAmendedC9, optSuperuser, optCompanyNot1, isRootSession]
  | some u =>
      cases isLoading <;> cases isAuthenticated <;>
        cases requireAdmin <;> cases requireRoot <;>
        cases hsu : u.is_superuser <;>
        simp [ProtectedRoute, guardAmendedC9, optSuperuser, optCompanyNot1,
          isRootSession, hsu, bne]

end AuthFrontend
